import Mathlib

/-!
Verification of the AngiDay meal-planner data core: the SQL schema and
row-level-security (RLS) policies of the initial migration, and the
client-side recipe search filter of `RecipeList.tsx`.

Modelling conventions:
* `uuid` identifiers are `Nat`; timestamps and dates are `Nat`;
  `decimal(10,2)` money columns are `Int` (the claims never compute on them).
* Nullable columns are `Option _`; columns that are `NOT NULL` or part of a
  primary key are plain.
* Each `CREATE POLICY` clause is one Lean definition translated literally.
  Per-command permission follows PostgreSQL permissive-policy semantics:
  policies for the same command are OR-ed; a `FOR ALL` policy applies to
  every command; a policy without `WITH CHECK` reuses its `USING` expression
  as the check on new rows (INSERT, and the post-image of UPDATE); a table
  with RLS enabled and no policy for a command denies it.
* Store-level deletes enforce the foreign-key actions of the schema:
  `ON DELETE CASCADE` children are removed with the parent, and a plain
  `REFERENCES` (NO ACTION) blocks the delete with an integrity error.
-/

abbrev UserId := Nat
abbrev RowId := Nat

/-- `profiles` table row (part_000 lines 37-45). -/
structure Profile where
  id : UserId
  username : Option String
  full_name : Option String
  avatar_url : Option String
  dietary_preferences : List String
  created_at : Nat
  updated_at : Nat
deriving DecidableEq

/-- `tags` table row (part_000 lines 48-53). -/
structure Tag where
  id : RowId
  name : String
  type : String
  created_at : Nat
deriving DecidableEq

/-- `recipes` table row (part_000 lines 56-74). -/
structure Recipe where
  id : RowId
  user_id : UserId
  title : String
  description : Option String
  instructions : List String
  prep_time_minutes : Option Int
  cook_time_minutes : Option Int
  servings : Option Int
  difficulty : Option String
  estimated_cost : Option Int
  calories_per_serving : Option Int
  image_url : Option String
  source_url : Option String
  source_name : Option String
  is_public : Bool
  created_at : Nat
  updated_at : Nat
deriving DecidableEq

/-- `recipe_ingredients` table row (part_000 lines 77-85). -/
structure RecipeIngredient where
  id : RowId
  recipe_id : Option RowId
  name : String
  amount : Option Int
  unit : Option String
  notes : Option String
  created_at : Nat
deriving DecidableEq

/-- `recipe_tags` table row; both columns form the primary key, hence
non-null (part_000 lines 88-92). -/
structure RecipeTag where
  recipe_id : RowId
  tag_id : RowId
deriving DecidableEq

/-- `meal_plans` table row (part_000 lines 95-104). -/
structure MealPlan where
  id : RowId
  user_id : UserId
  title : String
  start_date : Nat
  end_date : Nat
  notes : Option String
  created_at : Nat
  updated_at : Nat
deriving DecidableEq

/-- `meal_plan_items` table row (part_000 lines 107-116). -/
structure MealPlanItem where
  id : RowId
  meal_plan_id : Option RowId
  recipe_id : Option RowId
  date : Nat
  meal_type : String
  servings : Int
  notes : Option String
  created_at : Nat
deriving DecidableEq

/-- `shopping_lists` table row (part_000 lines 119-128). -/
structure ShoppingList where
  id : RowId
  user_id : UserId
  title : String
  meal_plan_id : Option RowId
  is_completed : Bool
  total_cost : Option Int
  created_at : Nat
  updated_at : Nat
deriving DecidableEq

/-- `shopping_list_items` table row (part_000 lines 131-144). -/
structure ShoppingListItem where
  id : RowId
  shopping_list_id : Option RowId
  ingredient_name : String
  amount : Option Int
  unit : Option String
  is_checked : Bool
  category : Option String
  estimated_cost : Option Int
  actual_cost : Option Int
  notes : Option String
  created_at : Nat
  updated_at : Nat
deriving DecidableEq

/-- Database state: the nine tables of the migration plus `auth.users`,
the identity-provider table the owning-identity columns reference. -/
structure DB where
  users : List UserId
  profiles : List Profile
  tags : List Tag
  recipes : List Recipe
  recipe_ingredients : List RecipeIngredient
  recipe_tags : List RecipeTag
  meal_plans : List MealPlan
  meal_plan_items : List MealPlanItem
  shopping_lists : List ShoppingList
  shopping_list_items : List ShoppingListItem
deriving DecidableEq

/-! ## RLS policy expressions, one definition per `CREATE POLICY` clause -/

/-- Policy "Users can view their own profile": `profiles FOR SELECT USING
(auth.uid() = id)` (part_000 lines 160-163). -/
def profilesSelectUsing (uid : UserId) (p : Profile) : Bool :=
  uid == p.id

/-- Policy "Users can update their own profile": `profiles FOR UPDATE USING
(auth.uid() = id)` (part_000 lines 165-168). -/
def profilesUpdateUsing (uid : UserId) (p : Profile) : Bool :=
  uid == p.id

/-- Policy "Anyone can view public recipes": `recipes FOR SELECT USING
(is_public = true OR auth.uid() = user_id)` (part_000 lines 171-174). -/
def recipesSelectUsing (uid : UserId) (r : Recipe) : Bool :=
  r.is_public == true || uid == r.user_id

/-- Policy "Users can create recipes": `recipes FOR INSERT WITH CHECK
(auth.uid() = user_id)` (part_000 lines 176-179). -/
def recipesInsertCheck (uid : UserId) (r : Recipe) : Bool :=
  uid == r.user_id

/-- Policy "Users can update their own recipes": `recipes FOR UPDATE USING
(auth.uid() = user_id)` (part_000 lines 181-184). -/
def recipesUpdateUsing (uid : UserId) (r : Recipe) : Bool :=
  uid == r.user_id

/-- Policy "Users can view recipe ingredients": `recipe_ingredients FOR
SELECT USING (EXISTS (SELECT 1 FROM recipes WHERE recipes.id =
recipe_ingredients.recipe_id AND (recipes.is_public = true OR
recipes.user_id = auth.uid())))` (part_000 lines 187-196). -/
def recipeIngredientsSelectUsing (db : DB) (uid : UserId)
    (ri : RecipeIngredient) : Bool :=
  db.recipes.any fun r =>
    some r.id == ri.recipe_id && (r.is_public == true || r.user_id == uid)

/-- Policy "Users can manage their recipe ingredients": `recipe_ingredients
FOR ALL USING (EXISTS (SELECT 1 FROM recipes WHERE recipes.id =
recipe_ingredients.recipe_id AND recipes.user_id = auth.uid()))`
(part_000 lines 198-207). -/
def recipeIngredientsAllUsing (db : DB) (uid : UserId)
    (ri : RecipeIngredient) : Bool :=
  db.recipes.any fun r => some r.id == ri.recipe_id && r.user_id == uid

/-- Policy "Anyone can view tags": `tags FOR SELECT USING (true)`
(part_000 lines 210-213). -/
def tagsSelectUsing (_uid : UserId) (_t : Tag) : Bool :=
  true

/-- Policy "Anyone can view recipe tags": `recipe_tags FOR SELECT USING
(true)` (part_000 lines 216-219). -/
def recipeTagsSelectUsing (_uid : UserId) (_rt : RecipeTag) : Bool :=
  true

/-- Policy "Users can manage their recipe tags": `recipe_tags FOR ALL USING
(EXISTS (SELECT 1 FROM recipes WHERE recipes.id = recipe_tags.recipe_id AND
recipes.user_id = auth.uid()))` (part_000 lines 221-230). -/
def recipeTagsAllUsing (db : DB) (uid : UserId) (rt : RecipeTag) : Bool :=
  db.recipes.any fun r => r.id == rt.recipe_id && r.user_id == uid

/-- Policy "Users can manage their meal plans": `meal_plans FOR ALL USING
(auth.uid() = user_id)` (part_000 lines 233-236). -/
def mealPlansAllUsing (uid : UserId) (mp : MealPlan) : Bool :=
  uid == mp.user_id

/-- Policy "Users can manage their meal plan items": `meal_plan_items FOR
ALL USING (EXISTS (SELECT 1 FROM meal_plans WHERE meal_plans.id =
meal_plan_items.meal_plan_id AND meal_plans.user_id = auth.uid()))`
(part_000 lines 239-248). -/
def mealPlanItemsAllUsing (db : DB) (uid : UserId)
    (it : MealPlanItem) : Bool :=
  db.meal_plans.any fun mp =>
    some mp.id == it.meal_plan_id && mp.user_id == uid

/-- Policy "Users can manage their shopping lists": `shopping_lists FOR ALL
USING (auth.uid() = user_id)` (part_000 lines 251-254). -/
def shoppingListsAllUsing (uid : UserId) (sl : ShoppingList) : Bool :=
  uid == sl.user_id

/-- Policy "Users can manage their shopping list items": `shopping_list_items
FOR ALL USING (EXISTS (SELECT 1 FROM shopping_lists WHERE shopping_lists.id
= shopping_list_items.shopping_list_id AND shopping_lists.user_id =
auth.uid()))` (part_000 lines 257-266). -/
def shoppingListItemsAllUsing (db : DB) (uid : UserId)
    (it : ShoppingListItem) : Bool :=
  db.shopping_lists.any fun sl =>
    some sl.id == it.shopping_list_id && sl.user_id == uid

/-! ## Per-command permission, PostgreSQL permissive semantics -/

/-- `profiles` SELECT: only the SELECT policy applies. -/
def canSelectProfile (uid : UserId) (p : Profile) : Bool :=
  profilesSelectUsing uid p

/-- `profiles` INSERT: no INSERT or ALL policy, default-deny. -/
def canInsertProfile (_uid : UserId) (_p : Profile) : Bool :=
  false

/-- `profiles` UPDATE: the UPDATE policy's USING gates the existing row and,
having no WITH CHECK, also the updated row. -/
def canUpdateProfile (uid : UserId) (old new : Profile) : Bool :=
  profilesUpdateUsing uid old && profilesUpdateUsing uid new

/-- `profiles` DELETE: no DELETE or ALL policy, default-deny. -/
def canDeleteProfile (_uid : UserId) (_p : Profile) : Bool :=
  false

/-- `recipes` SELECT. -/
def canSelectRecipe (uid : UserId) (r : Recipe) : Bool :=
  recipesSelectUsing uid r

/-- `recipes` INSERT. -/
def canInsertRecipe (uid : UserId) (r : Recipe) : Bool :=
  recipesInsertCheck uid r

/-- `recipes` UPDATE: USING on the existing row, reused as WITH CHECK on the
updated row. -/
def canUpdateRecipe (uid : UserId) (old new : Recipe) : Bool :=
  recipesUpdateUsing uid old && recipesUpdateUsing uid new

/-- `recipes` DELETE: no DELETE or ALL policy, default-deny. -/
def canDeleteRecipe (_uid : UserId) (_r : Recipe) : Bool :=
  false

/-- `recipe_ingredients` SELECT: the SELECT policy and the ALL policy both
apply, OR-ed (permissive). -/
def canSelectRecipeIngredient (db : DB) (uid : UserId)
    (ri : RecipeIngredient) : Bool :=
  recipeIngredientsSelectUsing db uid ri || recipeIngredientsAllUsing db uid ri

/-- `recipe_ingredients` INSERT: the ALL policy's USING reused as check. -/
def canInsertRecipeIngredient (db : DB) (uid : UserId)
    (ri : RecipeIngredient) : Bool :=
  recipeIngredientsAllUsing db uid ri

/-- `recipe_ingredients` UPDATE. -/
def canUpdateRecipeIngredient (db : DB) (uid : UserId)
    (old new : RecipeIngredient) : Bool :=
  recipeIngredientsAllUsing db uid old && recipeIngredientsAllUsing db uid new

/-- `recipe_ingredients` DELETE. -/
def canDeleteRecipeIngredient (db : DB) (uid : UserId)
    (ri : RecipeIngredient) : Bool :=
  recipeIngredientsAllUsing db uid ri

/-- `tags` SELECT. -/
def canSelectTag (uid : UserId) (t : Tag) : Bool :=
  tagsSelectUsing uid t

/-- `tags` INSERT: no INSERT or ALL policy, default-deny. -/
def canInsertTag (_uid : UserId) (_t : Tag) : Bool :=
  false

/-- `tags` UPDATE: no UPDATE or ALL policy, default-deny. -/
def canUpdateTag (_uid : UserId) (_old _new : Tag) : Bool :=
  false

/-- `tags` DELETE: no DELETE or ALL policy, default-deny. -/
def canDeleteTag (_uid : UserId) (_t : Tag) : Bool :=
  false

/-- `recipe_tags` SELECT: SELECT policy OR the ALL policy. -/
def canSelectRecipeTag (db : DB) (uid : UserId) (rt : RecipeTag) : Bool :=
  recipeTagsSelectUsing uid rt || recipeTagsAllUsing db uid rt

/-- `recipe_tags` INSERT. -/
def canInsertRecipeTag (db : DB) (uid : UserId) (rt : RecipeTag) : Bool :=
  recipeTagsAllUsing db uid rt

/-- `recipe_tags` UPDATE. -/
def canUpdateRecipeTag (db : DB) (uid : UserId) (old new : RecipeTag) : Bool :=
  recipeTagsAllUsing db uid old && recipeTagsAllUsing db uid new

/-- `recipe_tags` DELETE. -/
def canDeleteRecipeTag (db : DB) (uid : UserId) (rt : RecipeTag) : Bool :=
  recipeTagsAllUsing db uid rt

/-- `meal_plans` SELECT. -/
def canSelectMealPlan (uid : UserId) (mp : MealPlan) : Bool :=
  mealPlansAllUsing uid mp

/-- `meal_plans` INSERT. -/
def canInsertMealPlan (uid : UserId) (mp : MealPlan) : Bool :=
  mealPlansAllUsing uid mp

/-- `meal_plans` UPDATE. -/
def canUpdateMealPlan (uid : UserId) (old new : MealPlan) : Bool :=
  mealPlansAllUsing uid old && mealPlansAllUsing uid new

/-- `meal_plans` DELETE. -/
def canDeleteMealPlan (uid : UserId) (mp : MealPlan) : Bool :=
  mealPlansAllUsing uid mp

/-- `meal_plan_items` SELECT. -/
def canSelectMealPlanItem (db : DB) (uid : UserId) (it : MealPlanItem) : Bool :=
  mealPlanItemsAllUsing db uid it

/-- `meal_plan_items` INSERT. -/
def canInsertMealPlanItem (db : DB) (uid : UserId) (it : MealPlanItem) : Bool :=
  mealPlanItemsAllUsing db uid it

/-- `meal_plan_items` UPDATE. -/
def canUpdateMealPlanItem (db : DB) (uid : UserId)
    (old new : MealPlanItem) : Bool :=
  mealPlanItemsAllUsing db uid old && mealPlanItemsAllUsing db uid new

/-- `meal_plan_items` DELETE. -/
def canDeleteMealPlanItem (db : DB) (uid : UserId) (it : MealPlanItem) : Bool :=
  mealPlanItemsAllUsing db uid it

/-- `shopping_lists` SELECT. -/
def canSelectShoppingList (uid : UserId) (sl : ShoppingList) : Bool :=
  shoppingListsAllUsing uid sl

/-- `shopping_lists` INSERT. -/
def canInsertShoppingList (uid : UserId) (sl : ShoppingList) : Bool :=
  shoppingListsAllUsing uid sl

/-- `shopping_lists` UPDATE. -/
def canUpdateShoppingList (uid : UserId) (old new : ShoppingList) : Bool :=
  shoppingListsAllUsing uid old && shoppingListsAllUsing uid new

/-- `shopping_lists` DELETE. -/
def canDeleteShoppingList (uid : UserId) (sl : ShoppingList) : Bool :=
  shoppingListsAllUsing uid sl

/-- `shopping_list_items` SELECT. -/
def canSelectShoppingListItem (db : DB) (uid : UserId)
    (it : ShoppingListItem) : Bool :=
  shoppingListItemsAllUsing db uid it

/-- `shopping_list_items` INSERT. -/
def canInsertShoppingListItem (db : DB) (uid : UserId)
    (it : ShoppingListItem) : Bool :=
  shoppingListItemsAllUsing db uid it

/-- `shopping_list_items` UPDATE. -/
def canUpdateShoppingListItem (db : DB) (uid : UserId)
    (old new : ShoppingListItem) : Bool :=
  shoppingListItemsAllUsing db uid old && shoppingListItemsAllUsing db uid new

/-- `shopping_list_items` DELETE. -/
def canDeleteShoppingListItem (db : DB) (uid : UserId)
    (it : ShoppingListItem) : Bool :=
  shoppingListItemsAllUsing db uid it

/-! ## Store operations: error taxonomy, reads, writes, deletes -/

/-- Spec section 7 error taxonomy for rejected writes: an RLS denial is an
authorization failure; a constraint (foreign-key, uniqueness) violation is
an integrity failure. -/
inductive DbError where
  | authorization
  | integrity
deriving DecidableEq

/-- A SELECT over `recipes` (RecipeList.tsx lines 26-29 issues
`from recipes select *`): RLS filters to the rows whose SELECT policy
passes; denied rows are silently omitted. -/
def listRecipes (db : DB) (uid : UserId) : List Recipe :=
  db.recipes.filter fun r => canSelectRecipe uid r

/-- A direct lookup of one recipe by id: the same RLS-filtered relation,
probed for the first row with the given id. -/
def lookupRecipe (db : DB) (uid : UserId) (rid : RowId) : Option Recipe :=
  (listRecipes db uid).find? fun r => r.id == rid

/-- INSERT into `recipes`: the RLS check is evaluated against the new row;
a denial is an authorization error. A permitted row is then subject to the
primary-key constraint and the `user_id REFERENCES auth.users(id)`
foreign key, whose violations are integrity errors. -/
def insertRecipe (db : DB) (uid : UserId) (r : Recipe) : Except DbError DB :=
  if !canInsertRecipe uid r then
    .error .authorization
  else if db.recipes.any fun x => x.id == r.id then
    .error .integrity
  else if !(db.users.contains r.user_id) then
    .error .integrity
  else
    .ok { db with recipes := db.recipes ++ [r] }

/-- INSERT into `recipe_ingredients`: RLS check first (authorization),
then the primary-key and `recipe_id REFERENCES recipes(id)` constraints
(integrity). -/
def insertRecipeIngredient (db : DB) (uid : UserId)
    (ri : RecipeIngredient) : Except DbError DB :=
  if !canInsertRecipeIngredient db uid ri then
    .error .authorization
  else if db.recipe_ingredients.any fun x => x.id == ri.id then
    .error .integrity
  else if !(match ri.recipe_id with
            | none => true
            | some rid => db.recipes.any fun r => r.id == rid) then
    .error .integrity
  else
    .ok { db with recipe_ingredients := db.recipe_ingredients ++ [ri] }

/-- Store-level DELETE of a `recipes` row. `recipe_ingredients.recipe_id`
and `recipe_tags.recipe_id` are `ON DELETE CASCADE`, so their rows go with
the parent in the same step; `meal_plan_items.recipe_id` is a plain
`REFERENCES` (NO ACTION), so a referencing item blocks the delete with an
integrity error. -/
def storeDeleteRecipe (db : DB) (rid : RowId) : Except DbError DB :=
  if db.meal_plan_items.any fun it => it.recipe_id == some rid then
    .error .integrity
  else
    .ok { db with
      recipes := db.recipes.filter fun r => !(r.id == rid),
      recipe_ingredients :=
        db.recipe_ingredients.filter fun ri => !(ri.recipe_id == some rid),
      recipe_tags :=
        db.recipe_tags.filter fun rt => !(rt.recipe_id == rid) }

/-- Store-level DELETE of a `meal_plans` row. `meal_plan_items.meal_plan_id`
is `ON DELETE CASCADE`; `shopping_lists.meal_plan_id` is a plain
`REFERENCES` (NO ACTION), so a referencing shopping list blocks the delete
with an integrity error. -/
def storeDeleteMealPlan (db : DB) (pid : RowId) : Except DbError DB :=
  if db.shopping_lists.any fun sl => sl.meal_plan_id == some pid then
    .error .integrity
  else
    .ok { db with
      meal_plans := db.meal_plans.filter fun mp => !(mp.id == pid),
      meal_plan_items :=
        db.meal_plan_items.filter fun it => !(it.meal_plan_id == some pid) }

/-! ## Client-side search filter (RecipeList.tsx lines 40-43)

JavaScript `toLowerCase` is modelled by `String.toLower` and
`String.prototype.includes` by a substring test. The nullable schema column
`description` reaches the component even though its TypeScript interface
declares `description: string`; calling `toLowerCase` on `null` throws a
TypeError, modelled as `none`. -/

/-- `a.toLowerCase()` on JavaScript strings, character-wise lower-casing
(`Char.toLower` lower-cases the ASCII range, which covers the repository's
Latin-script titles and descriptions). -/
def jsToLower (s : String) : String :=
  ⟨s.data.map Char.toLower⟩

/-- `a.includes(b)` on JavaScript strings: `b` occurs contiguously in `a`
(the empty string occurs in every string). -/
def jsIncludes (a b : String) : Bool :=
  a.data.tails.any fun t => b.data.isPrefixOf t

/-- The filter callback
`recipe.title.toLowerCase().includes(searchQuery.toLowerCase()) ||
recipe.description.toLowerCase().includes(searchQuery.toLowerCase())`.
`||` short-circuits, so a `null` description throws (`none`) only when the
title test is false. -/
def recipeMatches (q : String) (r : Recipe) : Option Bool :=
  if jsIncludes (jsToLower r.title) (jsToLower q) then
    some true
  else
    match r.description with
    | none => none
    | some d => some (jsIncludes (jsToLower d) (jsToLower q))

/-- `recipes.filter(...)`: keeps the rows whose callback returns true, in
order; a thrown callback aborts the whole filter (`none`). -/
def filteredRecipes (q : String) : List Recipe → Option (List Recipe)
  | [] => some []
  | r :: rest =>
    match recipeMatches q r with
    | none => none
    | some b =>
      match filteredRecipes q rest with
      | none => none
      | some l => some (if b then r :: l else l)

/-! ## Concrete fixtures for witnesses and counterexamples -/

/-- A recipe row with the policy-relevant columns set and the advisory
columns defaulted. -/
def mkRecipe (id : RowId) (user : UserId) (title : String)
    (descr : Option String) (pub : Bool) : Recipe :=
  { id := id, user_id := user, title := title, description := descr,
    instructions := [], prep_time_minutes := none, cook_time_minutes := none,
    servings := none, difficulty := none, estimated_cost := none,
    calories_per_serving := none, image_url := none, source_url := none,
    source_name := none, is_public := pub, created_at := 0, updated_at := 0 }

/-- A profile row for a given identity. -/
def mkProfile (id : UserId) : Profile :=
  { id := id, username := none, full_name := none, avatar_url := none,
    dietary_preferences := [], created_at := 0, updated_at := 0 }

/-- A recipe-ingredient row. -/
def mkIngredient (id : RowId) (recipe : Option RowId) (name : String) :
    RecipeIngredient :=
  { id := id, recipe_id := recipe, name := name, amount := none,
    unit := none, notes := none, created_at := 0 }

/-- A meal-plan row. -/
def mkMealPlan (id : RowId) (user : UserId) : MealPlan :=
  { id := id, user_id := user, title := "plan", start_date := 0,
    end_date := 0, notes := none, created_at := 0, updated_at := 0 }

/-- A meal-plan-item row. -/
def mkMealPlanItem (id : RowId) (plan recipe : Option RowId) : MealPlanItem :=
  { id := id, meal_plan_id := plan, recipe_id := recipe, date := 0,
    meal_type := "dinner", servings := 1, notes := none, created_at := 0 }

/-- A shopping-list row. -/
def mkShoppingList (id : RowId) (user : UserId) (plan : Option RowId) :
    ShoppingList :=
  { id := id, user_id := user, title := "groceries", meal_plan_id := plan,
    is_completed := false, total_cost := none, created_at := 0,
    updated_at := 0 }

/-- The empty database. -/
def emptyDB : DB :=
  { users := [], profiles := [], tags := [], recipes := [],
    recipe_ingredients := [], recipe_tags := [], meal_plans := [],
    meal_plan_items := [], shopping_lists := [], shopping_list_items := [] }

/-! ## C8 -/

/-- C8: every authenticated identity may SELECT any row of the Tag
catalog, and every INSERT, UPDATE or DELETE against it is denied: the
single `tags` policy grants SELECT unconditionally and no write policy
exists, so writes fall to RLS default-deny. -/
theorem tags_readable_by_all_writable_by_none :
    ∀ (uid : UserId) (t old new : Tag),
      canSelectTag uid t = true ∧
      canInsertTag uid t = false ∧
      canUpdateTag uid old new = false ∧
      canDeleteTag uid t = false := by
  intro uid t old new
  exact ⟨rfl, rfl, rfl, rfl⟩

/-! ## C3 -/

/-- C3: for a public recipe, every authenticated identity passes the
SELECT policy; an UPDATE is permitted only when the caller is the owner
(the UPDATE policy's USING); and a DELETE is permitted only when the
caller is the owner — vacuously, since `recipes` has no DELETE policy and
default-deny makes every DELETE denied. -/
theorem public_recipe_read_for_all_write_for_owner (uid : UserId)
    (r : Recipe) (hpub : r.is_public = true) :
    canSelectRecipe uid r = true ∧
    (∀ r2 : Recipe, canUpdateRecipe uid r r2 = true → uid = r.user_id) ∧
    (canDeleteRecipe uid r = true → uid = r.user_id) := by
  refine ⟨?_, ?_, ?_⟩
  · simp [canSelectRecipe, recipesSelectUsing, hpub]
  · intro r2 h
    simp only [canUpdateRecipe, recipesUpdateUsing, Bool.and_eq_true,
      beq_iff_eq] at h
    exact h.1
  · intro h
    simp [canDeleteRecipe] at h

/-- Witness for C3 at a concrete public recipe owned by identity 1 and a
distinct caller 2. -/
theorem public_recipe_read_for_all_write_for_owner_witness :
    (mkRecipe 1 1 "Pho" (some "beef noodle soup") true).is_public = true ∧
    (canSelectRecipe 2 (mkRecipe 1 1 "Pho" (some "beef noodle soup") true)
        = true ∧
      (∀ r2 : Recipe,
        canUpdateRecipe 2 (mkRecipe 1 1 "Pho" (some "beef noodle soup") true)
            r2 = true →
          2 = (mkRecipe 1 1 "Pho" (some "beef noodle soup") true).user_id) ∧
      (canDeleteRecipe 2 (mkRecipe 1 1 "Pho" (some "beef noodle soup") true)
          = true →
        2 = (mkRecipe 1 1 "Pho" (some "beef noodle soup") true).user_id)) :=
  ⟨rfl, public_recipe_read_for_all_write_for_owner 2
    (mkRecipe 1 1 "Pho" (some "beef noodle soup") true) rfl⟩

/-! ## C6 -/

/-- C6: inserting a recipe whose `user_id` differs from the caller's
identity fails the INSERT policy's WITH CHECK and is rejected with an
authorization error; the rejected operation yields no new database state,
so no row is created. -/
theorem spoofed_recipe_insert_rejected (db : DB) (uid : UserId) (r : Recipe)
    (h : uid ≠ r.user_id) :
    insertRecipe db uid r = .error .authorization := by
  simp [insertRecipe, canInsertRecipe, recipesInsertCheck, h]

/-- Witness for C6: caller 2 inserting a recipe owned by 1 into the empty
database is rejected. -/
theorem spoofed_recipe_insert_rejected_witness :
    (2 : UserId) ≠ (mkRecipe 7 1 "Bun Cha" none false).user_id ∧
    insertRecipe emptyDB 2 (mkRecipe 7 1 "Bun Cha" none false)
      = .error .authorization :=
  ⟨by decide, spoofed_recipe_insert_rejected emptyDB 2
    (mkRecipe 7 1 "Bun Cha" none false) (by decide)⟩

/-! ## C10 -/

/-- C10: because the `recipes` and `profiles` UPDATE policies state only a
USING predicate, that predicate also gates the post-image, so any
permitted UPDATE leaves the row owned by the caller: the owning-identity
field cannot be reassigned. -/
theorem update_cannot_reassign_owner (uid : UserId) :
    (∀ old new : Recipe,
      canUpdateRecipe uid old new = true → new.user_id = uid) ∧
    (∀ old new : Profile,
      canUpdateProfile uid old new = true → new.id = uid) := by
  constructor
  · intro old new h
    simp only [canUpdateRecipe, recipesUpdateUsing, Bool.and_eq_true,
      beq_iff_eq] at h
    exact h.2.symm
  · intro old new h
    simp only [canUpdateProfile, profilesUpdateUsing, Bool.and_eq_true,
      beq_iff_eq] at h
    exact h.2.symm

/-- Witness for C10: identity 5 updating its own recipe keeps the row
owned by 5, and likewise for its profile. -/
theorem update_cannot_reassign_owner_witness :
    (canUpdateRecipe 5 (mkRecipe 1 5 "Com Tam" none false)
        (mkRecipe 1 5 "Com Tam Suon" none true) = true ∧
      (mkRecipe 1 5 "Com Tam Suon" none true).user_id = 5) ∧
    (canUpdateProfile 5 (mkProfile 5) (mkProfile 5) = true ∧
      (mkProfile 5).id = 5) :=
  ⟨⟨by decide, (update_cannot_reassign_owner 5).1
      (mkRecipe 1 5 "Com Tam" none false)
      (mkRecipe 1 5 "Com Tam Suon" none true) (by decide)⟩,
    ⟨by decide, (update_cannot_reassign_owner 5).2 (mkProfile 5) (mkProfile 5)
      (by decide)⟩⟩

/-! ## C4 -/

/-- Removing an element that a filter predicate rejects does not change
the filter's result. -/
theorem filter_erase_of_rejected {α : Type} [DecidableEq α] (p : α → Bool)
    (r : α) (hp : p r = false) (l : List α) :
    (l.filter fun x => decide (x ≠ r)).filter p = l.filter p := by
  rw [List.filter_filter]
  apply List.filter_congr
  intro a _
  by_cases ha : a = r
  · subst ha
    simp [hp]
  · simp [ha]

/-- C4: a private recipe is invisible to any non-owner: it appears in no
listing, and both the listing and a direct lookup by its id coincide with
those computed over a database from which the row has been removed — the
denial is indistinguishable from the row not existing. -/
theorem private_recipe_hidden_from_nonowner (db : DB) (uid : UserId)
    (r : Recipe) (_hr : r ∈ db.recipes) (hpriv : r.is_public = false)
    (hown : uid ≠ r.user_id) :
    r ∉ listRecipes db uid ∧
    listRecipes
      { db with recipes := db.recipes.filter fun x => decide (x ≠ r) } uid
      = listRecipes db uid ∧
    lookupRecipe
      { db with recipes := db.recipes.filter fun x => decide (x ≠ r) } uid
      r.id
      = lookupRecipe db uid r.id := by
  have hsel : canSelectRecipe uid r = false := by
    simp [canSelectRecipe, recipesSelectUsing, hpriv]
    exact hown
  have hlist :
      listRecipes
        { db with recipes := db.recipes.filter fun x => decide (x ≠ r) } uid
        = listRecipes db uid := by
    simpa [listRecipes] using
      filter_erase_of_rejected (fun x => canSelectRecipe uid x) r hsel
        db.recipes
  refine ⟨?_, hlist, ?_⟩
  · intro hmem
    have := List.of_mem_filter hmem
    rw [hsel] at this
    exact Bool.false_ne_true this
  · simp only [lookupRecipe]
    rw [hlist]

/-- Witness for C4: a private recipe of identity 1 in a two-recipe
database, probed by identity 2. -/
theorem private_recipe_hidden_from_nonowner_witness :
    (mkRecipe 1 1 "Secret Stew" none false ∈
      ({ emptyDB with
        recipes := [mkRecipe 1 1 "Secret Stew" none false,
          mkRecipe 2 1 "Pho" none true] } : DB).recipes ∧
      (mkRecipe 1 1 "Secret Stew" none false).is_public = false ∧
      (2 : UserId) ≠ (mkRecipe 1 1 "Secret Stew" none false).user_id) ∧
    (mkRecipe 1 1 "Secret Stew" none false ∉
      listRecipes
        { emptyDB with
          recipes := [mkRecipe 1 1 "Secret Stew" none false,
            mkRecipe 2 1 "Pho" none true] } 2) :=
  ⟨⟨by decide, by decide, by decide⟩,
    (private_recipe_hidden_from_nonowner
      { emptyDB with
        recipes := [mkRecipe 1 1 "Secret Stew" none false,
          mkRecipe 2 1 "Pho" none true] } 2
      (mkRecipe 1 1 "Secret Stew" none false)
      (by decide) (by decide) (by decide)).1⟩

/-! ## C5 -/

/-- C5: a RecipeIngredient insert succeeds exactly when the caller owns
the parent recipe, resolved by the policy's existence lookup against
`recipes`; when the caller does not own the parent — even if that parent
exists and is public — the failure is an authorization error, not an
integrity error. The id-freshness hypothesis rules out the unrelated
primary-key conflict (ids are generated server-side). -/
theorem recipe_ingredient_insert_gated_by_parent_owner (db : DB)
    (uid : UserId) (ri : RecipeIngredient)
    (hfresh : ∀ x ∈ db.recipe_ingredients, x.id ≠ ri.id) :
    ((∃ db2, insertRecipeIngredient db uid ri = .ok db2) ↔
      ∃ r ∈ db.recipes, some r.id = ri.recipe_id ∧ r.user_id = uid) ∧
    ((¬ ∃ r ∈ db.recipes, some r.id = ri.recipe_id ∧ r.user_id = uid) →
      insertRecipeIngredient db uid ri = .error .authorization) := by
  have hown : canInsertRecipeIngredient db uid ri = true ↔
      ∃ r ∈ db.recipes, some r.id = ri.recipe_id ∧ r.user_id = uid := by
    simp [canInsertRecipeIngredient, recipeIngredientsAllUsing,
      List.any_eq_true]
  constructor
  · constructor
    · rintro ⟨db2, h2⟩
      by_cases hc : canInsertRecipeIngredient db uid ri = true
      · exact hown.mp hc
      · unfold insertRecipeIngredient at h2
        simp [hc] at h2
    · intro hex
      have hc := hown.mpr hex
      have hpk : (db.recipe_ingredients.any fun x => x.id == ri.id)
          = false := by
        rw [List.any_eq_false]
        intro x hx
        simpa using hfresh x hx
      obtain ⟨r, hrmem, hid, _⟩ := hex
      have hfk : (match ri.recipe_id with
          | none => true
          | some rid => db.recipes.any fun x => x.id == rid) = true := by
        rw [← hid]
        simp [List.any_eq_true]
        exact ⟨r, hrmem, rfl⟩
      refine ⟨{ db with
        recipe_ingredients := db.recipe_ingredients ++ [ri] }, ?_⟩
      unfold insertRecipeIngredient
      simp [hc, hpk, hfk]
  · intro hnot
    have hc : canInsertRecipeIngredient db uid ri = false := by
      rcases h : canInsertRecipeIngredient db uid ri with _ | _
      · rfl
      · exact absurd (hown.mp h) hnot
    unfold insertRecipeIngredient
    simp [hc]

/-- Fixture for the C5 witness: identity 5 owns recipe 1; no ingredients
stored yet. -/
def c5Db : DB :=
  { emptyDB with
    users := [5],
    recipes := [mkRecipe 1 5 "Goi Cuon" none true] }

/-- Fixture for the C5 witness: an ingredient row for recipe 1. -/
def c5Ingredient : RecipeIngredient := mkIngredient 10 (some 1) "shrimp"

/-- Witness for C5: identity 5 inserting an ingredient under its own
recipe 1 in a database with no prior ingredients. -/
theorem recipe_ingredient_insert_gated_witness :
    (∀ x ∈ c5Db.recipe_ingredients, x.id ≠ c5Ingredient.id) ∧
    (((∃ db2, insertRecipeIngredient c5Db 5 c5Ingredient = .ok db2) ↔
      ∃ r ∈ c5Db.recipes,
        some r.id = c5Ingredient.recipe_id ∧ r.user_id = 5) ∧
    ((¬ ∃ r ∈ c5Db.recipes,
        some r.id = c5Ingredient.recipe_id ∧ r.user_id = 5) →
      insertRecipeIngredient c5Db 5 c5Ingredient
        = .error .authorization)) :=
  ⟨by decide,
    recipe_ingredient_insert_gated_by_parent_owner c5Db 5 c5Ingredient
      (by decide)⟩

/-! ## C2 -/

/-- Fixture for C2: recipe 1 is referenced by meal-plan item 3, and meal
plan 2 is referenced by shopping list 4. -/
def c2Db : DB :=
  { emptyDB with
    users := [10],
    recipes := [mkRecipe 1 10 "Banh Mi" none false],
    meal_plans := [mkMealPlan 2 10],
    meal_plan_items := [mkMealPlanItem 3 (some 2) (some 1)],
    shopping_lists := [mkShoppingList 4 10 (some 2)] }

/-- Counterexample to C2: recipe 1 is referenced by a MealPlanItem and
meal plan 2 by a ShoppingList, yet neither delete succeeds — both are
rejected with an integrity error, because `meal_plan_items.recipe_id` and
`shopping_lists.meal_plan_id` are plain `REFERENCES` (NO ACTION), not
dangling-tolerated. -/
theorem referenced_parent_delete_blocked_counterexample :
    (∃ it ∈ c2Db.meal_plan_items, it.recipe_id = some 1) ∧
    (∃ sl ∈ c2Db.shopping_lists, sl.meal_plan_id = some 2) ∧
    storeDeleteRecipe c2Db 1 = .error .integrity ∧
    storeDeleteMealPlan c2Db 2 = .error .integrity := by
  refine ⟨⟨mkMealPlanItem 3 (some 2) (some 1), by decide, rfl⟩,
    ⟨mkShoppingList 4 10 (some 2), by decide, rfl⟩, ?_, ?_⟩ <;> rfl

/-- C2 amended: a Recipe referenced by a MealPlanItem, or a MealPlan
referenced by a ShoppingList, cannot be deleted: the delete is rejected
with an integrity error. When such a delete does succeed, it touches only
the parent table and its cascade-listed children — no other table changes,
so no cascade beyond the listed parent-child pairs exists. -/
theorem referenced_parent_delete_rejected (db : DB) :
    (∀ rid, (∃ it ∈ db.meal_plan_items, it.recipe_id = some rid) →
      storeDeleteRecipe db rid = .error .integrity) ∧
    (∀ pid, (∃ sl ∈ db.shopping_lists, sl.meal_plan_id = some pid) →
      storeDeleteMealPlan db pid = .error .integrity) ∧
    (∀ rid db2, storeDeleteRecipe db rid = .ok db2 →
      db2.users = db.users ∧ db2.profiles = db.profiles ∧
      db2.tags = db.tags ∧ db2.meal_plans = db.meal_plans ∧
      db2.meal_plan_items = db.meal_plan_items ∧
      db2.shopping_lists = db.shopping_lists ∧
      db2.shopping_list_items = db.shopping_list_items) ∧
    (∀ pid db2, storeDeleteMealPlan db pid = .ok db2 →
      db2.users = db.users ∧ db2.profiles = db.profiles ∧
      db2.tags = db.tags ∧ db2.recipes = db.recipes ∧
      db2.recipe_ingredients = db.recipe_ingredients ∧
      db2.recipe_tags = db.recipe_tags ∧
      db2.shopping_lists = db.shopping_lists ∧
      db2.shopping_list_items = db.shopping_list_items) := by
  refine ⟨?_, ?_, ?_, ?_⟩
  · rintro rid ⟨it, hmem, heq⟩
    have hb : (db.meal_plan_items.any fun x => x.recipe_id == some rid)
        = true := by
      rw [List.any_eq_true]
      exact ⟨it, hmem, by simp [heq]⟩
    unfold storeDeleteRecipe
    simp [hb]
  · rintro pid ⟨sl, hmem, heq⟩
    have hb : (db.shopping_lists.any fun x => x.meal_plan_id == some pid)
        = true := by
      rw [List.any_eq_true]
      exact ⟨sl, hmem, by simp [heq]⟩
    unfold storeDeleteMealPlan
    simp [hb]
  · intro rid db2 h
    unfold storeDeleteRecipe at h
    split at h
    · simp at h
    · injection h with h
      subst h
      exact ⟨rfl, rfl, rfl, rfl, rfl, rfl, rfl⟩
  · intro pid db2 h
    unfold storeDeleteMealPlan at h
    split at h
    · simp at h
    · injection h with h
      subst h
      exact ⟨rfl, rfl, rfl, rfl, rfl, rfl, rfl, rfl⟩

/-- Witness for the amended C2, at the concrete fixture database. -/
theorem referenced_parent_delete_rejected_witness :
    (∃ it ∈ c2Db.meal_plan_items, it.recipe_id = some (1 : RowId)) ∧
    storeDeleteRecipe c2Db 1 = .error .integrity :=
  ⟨⟨mkMealPlanItem 3 (some 2) (some 1), by decide, rfl⟩,
    (referenced_parent_delete_rejected c2Db).1 1
      ⟨mkMealPlanItem 3 (some 2) (some 1), by decide, rfl⟩⟩

/-! ## C7 -/

/-- Fixture for C7: meal plan 1 has one item (100); item 101 belongs to a
different plan; shopping list 50 references plan 1. -/
def c7Db : DB :=
  { emptyDB with
    users := [10],
    meal_plans := [mkMealPlan 1 10],
    meal_plan_items := [mkMealPlanItem 100 (some 1) none,
      mkMealPlanItem 101 (some 9) none],
    shopping_lists := [mkShoppingList 50 10 (some 1)] }

/-- Counterexample to C7: meal plan 1 has an associated item, but because
shopping list 50 references the plan through the non-cascading
`shopping_lists.meal_plan_id`, the delete is rejected with an integrity
error and the item referencing plan 1 remains — the deletion does not
remove the N items. -/
theorem meal_plan_delete_blocked_counterexample :
    storeDeleteMealPlan c7Db 1 = .error .integrity ∧
    (c7Db.meal_plan_items.any fun it => it.meal_plan_id == some 1)
      = true := by
  exact ⟨rfl, rfl⟩

/-- C7 amended: when no ShoppingList references the meal plan, deleting it
succeeds and removes, in the same single step as the parent delete (the
model's one transition, hence atomically), exactly the items referencing
the plan: afterwards no MealPlanItem row referencing that plan id remains
and the plan itself is gone; when a ShoppingList does reference the plan,
the delete is rejected with an integrity error and every row remains. -/
theorem meal_plan_delete_cascades_items (db : DB) (pid : RowId)
    (h : ∀ sl ∈ db.shopping_lists, sl.meal_plan_id ≠ some pid) :
    ∃ db2, storeDeleteMealPlan db pid = .ok db2 ∧
      db2.meal_plan_items =
        db.meal_plan_items.filter (fun it => !(it.meal_plan_id == some pid))
        ∧
      (∀ it ∈ db2.meal_plan_items, it.meal_plan_id ≠ some pid) ∧
      (∀ mp ∈ db2.meal_plans, mp.id ≠ pid) := by
  have hno : (db.shopping_lists.any fun sl => sl.meal_plan_id == some pid)
      = false := by
    rw [List.any_eq_false]
    intro sl hsl
    simpa using h sl hsl
  refine ⟨{ db with
      meal_plans := db.meal_plans.filter fun mp => !(mp.id == pid),
      meal_plan_items :=
        db.meal_plan_items.filter fun it => !(it.meal_plan_id == some pid) },
    ?_, rfl, ?_, ?_⟩
  · unfold storeDeleteMealPlan
    simp [hno]
  · intro it hit
    have hkeep := List.of_mem_filter hit
    simpa using hkeep
  · intro mp hmp
    have hkeep := List.of_mem_filter hmp
    simpa using hkeep

/-- Witness for the amended C7: deleting plan 1 in a database where no
shopping list references it removes exactly the item attached to plan 1. -/
theorem meal_plan_delete_cascades_items_witness :
    (∀ sl ∈ ({ emptyDB with
        users := [10],
        meal_plans := [mkMealPlan 1 10],
        meal_plan_items := [mkMealPlanItem 100 (some 1) none,
          mkMealPlanItem 101 (some 9) none] } : DB).shopping_lists,
      sl.meal_plan_id ≠ some 1) ∧
    (∃ db2, storeDeleteMealPlan
        { emptyDB with
          users := [10],
          meal_plans := [mkMealPlan 1 10],
          meal_plan_items := [mkMealPlanItem 100 (some 1) none,
            mkMealPlanItem 101 (some 9) none] } 1 = .ok db2 ∧
      db2.meal_plan_items =
        ({ emptyDB with
          users := [10],
          meal_plans := [mkMealPlan 1 10],
          meal_plan_items := [mkMealPlanItem 100 (some 1) none,
            mkMealPlanItem 101 (some 9) none] } : DB).meal_plan_items.filter
          (fun it => !(it.meal_plan_id == some 1)) ∧
      (∀ it ∈ db2.meal_plan_items, it.meal_plan_id ≠ some 1) ∧
      (∀ mp ∈ db2.meal_plans, mp.id ≠ 1)) :=
  ⟨by decide,
    meal_plan_delete_cascades_items
      { emptyDB with
        users := [10],
        meal_plans := [mkMealPlan 1 10],
        meal_plan_items := [mkMealPlanItem 100 (some 1) none,
          mkMealPlanItem 101 (some 9) none] } 1 (by decide)⟩

/-! ## C9 -/

/-- Total version of the search predicate: a recipe matches when its title
or its (non-null) description contains the query as a case-insensitive
substring; a null description simply does not match. -/
def recipeMatchesTotal (q : String) (r : Recipe) : Bool :=
  jsIncludes (jsToLower r.title) (jsToLower q) ||
  (match r.description with
   | none => false
   | some d => jsIncludes (jsToLower d) (jsToLower q))

/-- Fixture for C9: a recipe row whose nullable `description` column is
null, as the schema permits. -/
def c9NullDescRecipe : Recipe := mkRecipe 1 1 "Pho Bo" none true

/-- Counterexample to C9: on a recipe with a null description whose title
does not contain the query, the filter callback dereferences null
(`recipe.description.toLowerCase()`) and throws, so the filter is not a
total function over the rows the listing can receive. -/
theorem search_filter_throws_on_null_description :
    c9NullDescRecipe.description = none ∧
    filteredRecipes "ga" [c9NullDescRecipe] = none := by
  refine ⟨rfl, ?_⟩
  decide

/-- C9 amended: over recipe collections whose rows all carry a non-null
description, the filter displays exactly the recipes whose title or
description contains the query as a case-insensitive substring; on a row
with a null description whose title does not match, the callback instead
throws, aborting the filter. -/
theorem search_filter_displays_substring_matches (q : String)
    (rs : List Recipe) (h : ∀ r ∈ rs, r.description ≠ none) :
    filteredRecipes q rs = some (rs.filter (recipeMatchesTotal q)) := by
  induction rs with
  | nil => rfl
  | cons r rest ih =>
    have hr : r.description ≠ none := h r (List.mem_cons_self r rest)
    have hrest : ∀ x ∈ rest, x.description ≠ none := fun x hx =>
      h x (List.mem_cons_of_mem r hx)
    have hmatch : recipeMatches q r = some (recipeMatchesTotal q r) := by
      unfold recipeMatches recipeMatchesTotal
      cases hb : jsIncludes (jsToLower r.title) (jsToLower q)
      · cases hd : r.description
        · exact absurd hd hr
        · simp [hb, hd]
      · simp [hb]
    show (match recipeMatches q r with
      | none => none
      | some b =>
        match filteredRecipes q rest with
        | none => none
        | some l => some (if b then r :: l else l))
      = some ((r :: rest).filter (recipeMatchesTotal q))
    rw [hmatch, ih hrest, List.filter_cons]

/-- Witness for the amended C9: the query "GA" selects exactly the recipe
whose lower-cased title contains "ga" among two fully-described rows. -/
theorem search_filter_displays_substring_matches_witness :
    (∀ r ∈ [mkRecipe 1 1 "Pho Ga" (some "chicken noodle soup") true,
        mkRecipe 2 1 "Banh Mi" (some "crusty baguette") true],
      r.description ≠ none) ∧
    filteredRecipes "GA"
        [mkRecipe 1 1 "Pho Ga" (some "chicken noodle soup") true,
          mkRecipe 2 1 "Banh Mi" (some "crusty baguette") true]
      = some ([mkRecipe 1 1 "Pho Ga" (some "chicken noodle soup") true,
          mkRecipe 2 1 "Banh Mi" (some "crusty baguette") true].filter
          (recipeMatchesTotal "GA")) :=
  ⟨by decide,
    search_filter_displays_substring_matches "GA"
      [mkRecipe 1 1 "Pho Ga" (some "chicken noodle soup") true,
        mkRecipe 2 1 "Banh Mi" (some "crusty baguette") true]
      (by decide)⟩

/-! ## C1 -/

/-- The recipe-ingredients ALL policy passes exactly when some stored
recipe is the ingredient's parent and is owned by the caller. -/
theorem recipeIngredientsAllUsing_iff (db : DB) (uid : UserId)
    (ri : RecipeIngredient) :
    recipeIngredientsAllUsing db uid ri = true ↔
      ∃ r ∈ db.recipes, some r.id = ri.recipe_id ∧ r.user_id = uid := by
  simp [recipeIngredientsAllUsing, List.any_eq_true]

/-- The recipe-tags ALL policy passes exactly when some stored recipe is
the tag row's parent and is owned by the caller. -/
theorem recipeTagsAllUsing_iff (db : DB) (uid : UserId) (rt : RecipeTag) :
    recipeTagsAllUsing db uid rt = true ↔
      ∃ r ∈ db.recipes, r.id = rt.recipe_id ∧ r.user_id = uid := by
  simp [recipeTagsAllUsing, List.any_eq_true]

/-- The meal-plan-items ALL policy passes exactly when some stored meal
plan is the item's parent and is owned by the caller. -/
theorem mealPlanItemsAllUsing_iff (db : DB) (uid : UserId)
    (it : MealPlanItem) :
    mealPlanItemsAllUsing db uid it = true ↔
      ∃ mp ∈ db.meal_plans, some mp.id = it.meal_plan_id ∧
        mp.user_id = uid := by
  simp [mealPlanItemsAllUsing, List.any_eq_true]

/-- The shopping-list-items ALL policy passes exactly when some stored
shopping list is the item's parent and is owned by the caller. -/
theorem shoppingListItemsAllUsing_iff (db : DB) (uid : UserId)
    (it : ShoppingListItem) :
    shoppingListItemsAllUsing db uid it = true ↔
      ∃ sl ∈ db.shopping_lists, some sl.id = it.shopping_list_id ∧
        sl.user_id = uid := by
  simp [shoppingListItemsAllUsing, List.any_eq_true]

/-- Fixture for C1: recipe 1 is private and owned by identity 10; the
RecipeTag (1, 5) joins it to tag 5; identity 20 is a distinct caller. -/
def c1Db : DB :=
  { emptyDB with
    users := [10, 20],
    recipes := [mkRecipe 1 10 "Hidden Curry" none false],
    tags := [{ id := 5, name := "spicy", type := "cuisine", created_at := 0 }],
    recipe_tags := [{ recipe_id := 1, tag_id := 5 }] }

/-- Counterexample to C1: the RecipeTag row (1, 5) has a private parent
recipe owned by identity 10, yet the distinct identity 20 is permitted to
SELECT it, because the policy "Anyone can view recipe tags" is
`USING (true)` — reading recipe tags is a third unconditional exception,
not gated by the parent recipe's visibility. -/
theorem private_recipe_tag_readable_by_nonowner :
    (⟨1, 5⟩ : RecipeTag) ∈ c1Db.recipe_tags ∧
    (∃ r ∈ c1Db.recipes,
      r.id = 1 ∧ r.is_public = false ∧ r.user_id = 10) ∧
    (20 : UserId) ≠ 10 ∧
    canSelectRecipeTag c1Db 20 ⟨1, 5⟩ = true := by
  exact ⟨by decide, ⟨mkRecipe 1 10 "Hidden Curry" none false,
    by decide, rfl, rfl, rfl⟩, by decide, rfl⟩

/-- C1 amended: every owned table gates access by equality between the
caller's identity and the row's (or its ancestor's) owning identity, with
exactly three exceptions: recipes and their dependents are readable by
anyone when the recipe's public flag is set, the shared Tag catalog is
globally readable, and RecipeTag rows are readable by every authenticated
identity regardless of the parent recipe's visibility — in particular a
RecipeTag row whose parent recipe is private is readable by non-owners.
Operations with no policy (profile insert/delete, tag writes, recipe
delete) are denied outright. -/
theorem owned_access_gated_with_three_exceptions (db : DB) (uid : UserId) :
    (∀ p : Profile, canSelectProfile uid p = true → p.id = uid) ∧
    (∀ p : Profile, canInsertProfile uid p = false) ∧
    (∀ old new : Profile, canUpdateProfile uid old new = true →
      old.id = uid ∧ new.id = uid) ∧
    (∀ p : Profile, canDeleteProfile uid p = false) ∧
    (∀ r : Recipe, canSelectRecipe uid r = true →
      r.is_public = true ∨ r.user_id = uid) ∧
    (∀ r : Recipe, canInsertRecipe uid r = true → r.user_id = uid) ∧
    (∀ old new : Recipe, canUpdateRecipe uid old new = true →
      old.user_id = uid ∧ new.user_id = uid) ∧
    (∀ r : Recipe, canDeleteRecipe uid r = false) ∧
    (∀ ri : RecipeIngredient, canSelectRecipeIngredient db uid ri = true →
      ∃ r ∈ db.recipes, some r.id = ri.recipe_id ∧
        (r.is_public = true ∨ r.user_id = uid)) ∧
    (∀ ri : RecipeIngredient, canInsertRecipeIngredient db uid ri = true →
      ∃ r ∈ db.recipes, some r.id = ri.recipe_id ∧ r.user_id = uid) ∧
    (∀ old new : RecipeIngredient,
      canUpdateRecipeIngredient db uid old new = true →
      (∃ r ∈ db.recipes, some r.id = old.recipe_id ∧ r.user_id = uid) ∧
      (∃ r ∈ db.recipes, some r.id = new.recipe_id ∧ r.user_id = uid)) ∧
    (∀ ri : RecipeIngredient, canDeleteRecipeIngredient db uid ri = true →
      ∃ r ∈ db.recipes, some r.id = ri.recipe_id ∧ r.user_id = uid) ∧
    (∀ t : Tag, canSelectTag uid t = true) ∧
    (∀ t : Tag, canInsertTag uid t = false) ∧
    (∀ old new : Tag, canUpdateTag uid old new = false) ∧
    (∀ t : Tag, canDeleteTag uid t = false) ∧
    (∀ rt : RecipeTag, canSelectRecipeTag db uid rt = true) ∧
    (∀ rt : RecipeTag, canInsertRecipeTag db uid rt = true →
      ∃ r ∈ db.recipes, r.id = rt.recipe_id ∧ r.user_id = uid) ∧
    (∀ old new : RecipeTag, canUpdateRecipeTag db uid old new = true →
      (∃ r ∈ db.recipes, r.id = old.recipe_id ∧ r.user_id = uid) ∧
      (∃ r ∈ db.recipes, r.id = new.recipe_id ∧ r.user_id = uid)) ∧
    (∀ rt : RecipeTag, canDeleteRecipeTag db uid rt = true →
      ∃ r ∈ db.recipes, r.id = rt.recipe_id ∧ r.user_id = uid) ∧
    (∀ mp : MealPlan, canSelectMealPlan uid mp = true → mp.user_id = uid) ∧
    (∀ mp : MealPlan, canInsertMealPlan uid mp = true → mp.user_id = uid) ∧
    (∀ old new : MealPlan, canUpdateMealPlan uid old new = true →
      old.user_id = uid ∧ new.user_id = uid) ∧
    (∀ mp : MealPlan, canDeleteMealPlan uid mp = true → mp.user_id = uid) ∧
    (∀ it : MealPlanItem, canSelectMealPlanItem db uid it = true →
      ∃ mp ∈ db.meal_plans, some mp.id = it.meal_plan_id ∧
        mp.user_id = uid) ∧
    (∀ it : MealPlanItem, canInsertMealPlanItem db uid it = true →
      ∃ mp ∈ db.meal_plans, some mp.id = it.meal_plan_id ∧
        mp.user_id = uid) ∧
    (∀ old new : MealPlanItem,
      canUpdateMealPlanItem db uid old new = true →
      (∃ mp ∈ db.meal_plans, some mp.id = old.meal_plan_id ∧
        mp.user_id = uid) ∧
      (∃ mp ∈ db.meal_plans, some mp.id = new.meal_plan_id ∧
        mp.user_id = uid)) ∧
    (∀ it : MealPlanItem, canDeleteMealPlanItem db uid it = true →
      ∃ mp ∈ db.meal_plans, some mp.id = it.meal_plan_id ∧
        mp.user_id = uid) ∧
    (∀ sl : ShoppingList, canSelectShoppingList uid sl = true →
      sl.user_id = uid) ∧
    (∀ sl : ShoppingList, canInsertShoppingList uid sl = true →
      sl.user_id = uid) ∧
    (∀ old new : ShoppingList, canUpdateShoppingList uid old new = true →
      old.user_id = uid ∧ new.user_id = uid) ∧
    (∀ sl : ShoppingList, canDeleteShoppingList uid sl = true →
      sl.user_id = uid) ∧
    (∀ it : ShoppingListItem, canSelectShoppingListItem db uid it = true →
      ∃ sl ∈ db.shopping_lists, some sl.id = it.shopping_list_id ∧
        sl.user_id = uid) ∧
    (∀ it : ShoppingListItem, canInsertShoppingListItem db uid it = true →
      ∃ sl ∈ db.shopping_lists, some sl.id = it.shopping_list_id ∧
        sl.user_id = uid) ∧
    (∀ old new : ShoppingListItem,
      canUpdateShoppingListItem db uid old new = true →
      (∃ sl ∈ db.shopping_lists, some sl.id = old.shopping_list_id ∧
        sl.user_id = uid) ∧
      (∃ sl ∈ db.shopping_lists, some sl.id = new.shopping_list_id ∧
        sl.user_id = uid)) ∧
    (∀ it : ShoppingListItem, canDeleteShoppingListItem db uid it = true →
      ∃ sl ∈ db.shopping_lists, some sl.id = it.shopping_list_id ∧
        sl.user_id = uid) := by
  refine ⟨?_, fun _ => rfl, ?_, fun _ => rfl, ?_, ?_, ?_, fun _ => rfl,
    ?_, ?_, ?_, ?_, fun _ => rfl, fun _ => rfl, fun _ _ => rfl,
    fun _ => rfl, ?_, ?_, ?_, ?_, ?_, ?_, ?_, ?_, ?_, ?_, ?_, ?_, ?_, ?_,
    ?_, ?_, ?_, ?_, ?_, ?_⟩
  · intro p h
    simp only [canSelectProfile, profilesSelectUsing, beq_iff_eq] at h
    exact h.symm
  · intro old new h
    simp only [canUpdateProfile, profilesUpdateUsing, Bool.and_eq_true,
      beq_iff_eq] at h
    exact ⟨h.1.symm, h.2.symm⟩
  · intro r h
    simp only [canSelectRecipe, recipesSelectUsing, Bool.or_eq_true,
      beq_iff_eq] at h
    rcases h with h | h
    · exact Or.inl h
    · exact Or.inr h.symm
  · intro r h
    simp only [canInsertRecipe, recipesInsertCheck, beq_iff_eq] at h
    exact h.symm
  · intro old new h
    simp only [canUpdateRecipe, recipesUpdateUsing, Bool.and_eq_true,
      beq_iff_eq] at h
    exact ⟨h.1.symm, h.2.symm⟩
  · intro ri h
    rw [canSelectRecipeIngredient, Bool.or_eq_true] at h
    rcases h with h | h
    · rw [recipeIngredientsSelectUsing, List.any_eq_true] at h
      obtain ⟨r, hmem, hcond⟩ := h
      simp only [Bool.and_eq_true, Bool.or_eq_true, beq_iff_eq] at hcond
      exact ⟨r, hmem, hcond.1, hcond.2⟩
    · obtain ⟨r, hmem, h1, h2⟩ := (recipeIngredientsAllUsing_iff db uid
        ri).mp h
      exact ⟨r, hmem, h1, Or.inr h2⟩
  · exact fun ri h => (recipeIngredientsAllUsing_iff db uid ri).mp h
  · intro old new h
    rw [canUpdateRecipeIngredient, Bool.and_eq_true] at h
    exact ⟨(recipeIngredientsAllUsing_iff db uid old).mp h.1,
      (recipeIngredientsAllUsing_iff db uid new).mp h.2⟩
  · exact fun ri h => (recipeIngredientsAllUsing_iff db uid ri).mp h
  · exact fun rt => rfl
  · exact fun rt h => (recipeTagsAllUsing_iff db uid rt).mp h
  · intro old new h
    rw [canUpdateRecipeTag, Bool.and_eq_true] at h
    exact ⟨(recipeTagsAllUsing_iff db uid old).mp h.1,
      (recipeTagsAllUsing_iff db uid new).mp h.2⟩
  · exact fun rt h => (recipeTagsAllUsing_iff db uid rt).mp h
  · intro mp h
    simp only [canSelectMealPlan, mealPlansAllUsing, beq_iff_eq] at h
    exact h.symm
  · intro mp h
    simp only [canInsertMealPlan, mealPlansAllUsing, beq_iff_eq] at h
    exact h.symm
  · intro old new h
    simp only [canUpdateMealPlan, mealPlansAllUsing, Bool.and_eq_true,
      beq_iff_eq] at h
    exact ⟨h.1.symm, h.2.symm⟩
  · intro mp h
    simp only [canDeleteMealPlan, mealPlansAllUsing, beq_iff_eq] at h
    exact h.symm
  · exact fun it h => (mealPlanItemsAllUsing_iff db uid it).mp h
  · exact fun it h => (mealPlanItemsAllUsing_iff db uid it).mp h
  · intro old new h
    rw [canUpdateMealPlanItem, Bool.and_eq_true] at h
    exact ⟨(mealPlanItemsAllUsing_iff db uid old).mp h.1,
      (mealPlanItemsAllUsing_iff db uid new).mp h.2⟩
  · exact fun it h => (mealPlanItemsAllUsing_iff db uid it).mp h
  · intro sl h
    simp only [canSelectShoppingList, shoppingListsAllUsing, beq_iff_eq] at h
    exact h.symm
  · intro sl h
    simp only [canInsertShoppingList, shoppingListsAllUsing, beq_iff_eq] at h
    exact h.symm
  · intro old new h
    simp only [canUpdateShoppingList, shoppingListsAllUsing,
      Bool.and_eq_true, beq_iff_eq] at h
    exact ⟨h.1.symm, h.2.symm⟩
  · intro sl h
    simp only [canDeleteShoppingList, shoppingListsAllUsing, beq_iff_eq] at h
    exact h.symm
  · exact fun it h => (shoppingListItemsAllUsing_iff db uid it).mp h
  · exact fun it h => (shoppingListItemsAllUsing_iff db uid it).mp h
  · intro old new h
    rw [canUpdateShoppingListItem, Bool.and_eq_true] at h
    exact ⟨(shoppingListItemsAllUsing_iff db uid old).mp h.1,
      (shoppingListItemsAllUsing_iff db uid new).mp h.2⟩
  · exact fun it h => (shoppingListItemsAllUsing_iff db uid it).mp h

/-- Witness for the amended C1: identity 7 may select its own profile, and
any permitted profile select implies ownership. -/
theorem owned_access_gated_with_three_exceptions_witness :
    canSelectProfile 7 (mkProfile 7) = true ∧ (mkProfile 7).id = 7 :=
  ⟨by decide,
    (owned_access_gated_with_three_exceptions emptyDB 7).1 (mkProfile 7)
      (by decide)⟩
